import Mathlib

/-!
# musicwidget: event loop, input handling, state polling, progress geometry, artwork

A shallow embedding of `musicwidget.c`.

* C `double` values are modelled as rationals (`ℚ`). Where the source converts a
  `double` result to an integer (`grey` in `draw_art`) every operation is rounded to
  binary64 by `to_double`; elsewhere the arithmetic is exact. Infinities and NaN are
  outside the model.
* `uint32_t` values are naturals, with the wrap at `2^32` written out where the source
  subtracts them.
* C strings are lists of characters without the terminating NUL.
* The process-wide mutable variables of the source are the fields of `Widget`; every
  operation returns the new `Widget` together with the list of externally visible
  actions (`Effect`) it performed, in order.
-/

namespace MusicWidget

/-! ## Dimensions -/

def WIDTH : Int := 320
def HEIGHT : Int := 100
def MARGIN : Int := 20
def ART_SIZE : Int := 72
def ART_RADIUS : ℚ := 10
def CARD_RADIUS : ℚ := 18
def POLL_MS : Int := 100

def BTN_CX : Int := WIDTH - MARGIN - 14
def BTN_CY : Int := MARGIN + 14
def BTN_R : Int := 14

/-- Value of `WL_POINTER_BUTTON_STATE_PRESSED` in the Wayland client protocol. -/
def WL_POINTER_BUTTON_STATE_PRESSED : Nat := 1

/-! ## Player state -/

/-- The `PlayerState` struct. `playing` is a C `int`. -/
structure PlayerState where
  title : List Char
  artist : List Char
  album : List Char
  art_url : List Char
  position : ℚ
  length : ℚ
  playing : Int
deriving DecidableEq

/-- The file-scope variables of the program that the modelled functions read or write:
`state`, `ptr_x`, `ptr_y`, `ptr_enter_serial`, `last_click_time`, `suppress_poll`. -/
structure Widget where
  state : PlayerState
  ptr_x : ℚ
  ptr_y : ℚ
  ptr_enter_serial : Nat
  last_click_time : Nat
  suppress_poll : Int
deriving DecidableEq

/-- Static initialisation of the file-scope variables (all zero). -/
def Widget.init : Widget :=
  { state := { title := [], artist := [], album := [], art_url := [],
               position := 0, length := 0, playing := 0 },
    ptr_x := 0, ptr_y := 0, ptr_enter_serial := 0,
    last_click_time := 0, suppress_poll := 0 }

/-! ## What a redraw puts on screen -/

structure Rect where
  x : ℚ
  y : ℚ
  w : ℚ
  h : ℚ
deriving DecidableEq

/-- Interior glyph of the round button drawn by `draw_play_pause`. -/
inductive Glyph where
  | bars
  | triangle
deriving DecidableEq

/-- The content composed by one call of `redraw`, in drawing order: the artwork source
handed to the converter (`none` when `convert_to_png` returns `NULL`), the three text
rows with their common origin and clip width, the two progress rectangles and the
button glyph. -/
structure Frame where
  art_path : Option (List Char)
  art_x : ℚ
  art_y : ℚ
  title : List Char
  artist : List Char
  album : List Char
  tx : ℚ
  text_max : ℚ
  track : Rect
  fill : Rect
  glyph : Glyph
deriving DecidableEq

inductive Cursor where
  | pointer
  | default
deriving DecidableEq

/-- Externally visible actions, recorded in the order the program performs them. -/
inductive Effect where
  /-- The call `popen(cmd, "r")` followed by reading one line and `pclose`. -/
  | popen (cmd : String)
  /-- The call `system(cmd)`. -/
  | system (cmd : String)
  /-- One complete `redraw()`: compose the frame, attach, damage, commit, flush. -/
  | redraw (f : Frame)
  /-- A call of `wl_display_flush` outside `redraw`. -/
  | display_flush
  /-- A call of `set_cursor` with the given serial. -/
  | set_cursor (serial : Nat) (c : Cursor)
deriving DecidableEq

/-- The outside world as seen through `popen`: for a command line, `none` when `popen`
fails, otherwise the bytes the process writes to its standard output. -/
abbrev Shell := String → Option (List Char)

/-! ## C library helpers -/

/-- Reading with `fgets(buf, n + 1, f)` into a zeroed buffer: at most `n` characters,
stopping after the first newline, which is kept. -/
def fgets : Nat → List Char → List Char
  | 0, _ => []
  | _ + 1, [] => []
  | n + 1, c :: cs => if c = '\n' then [c] else c :: fgets n cs

/-- The C string held in a buffer: everything before the first NUL. -/
def c_str (buf : List Char) : List Char :=
  buf.takeWhile (fun c => c != '\x00')

/-- The loop `while (len > 0 && (buf[len-1] == '\n' || buf[len-1] == '\r')) buf[--len] = 0`. -/
def strip_eol (buf : List Char) : List Char :=
  buf.rdropWhile (fun c => c == '\n' || c == '\r')

/-- Result of `strcmp`: zero, or the difference of the first differing bytes. -/
def strcmp : List Char → List Char → Int
  | [], [] => 0
  | [], b :: _ => - (b.toNat : Int)
  | a :: _, [] => (a.toNat : Int)
  | a :: as, b :: bs => if a = b then strcmp as bs else (a.toNat : Int) - (b.toNat : Int)

/-- Result of `strncpy(dst, v, n)` into a field whose byte `n` is never written and
stays NUL: the first `n` characters of `v`. -/
def strncpy (v : List Char) (n : Nat) : List Char :=
  v.take n

/-- C logical negation on `int`. -/
def c_not (x : Int) : Int :=
  if x = 0 then 1 else 0

/-- Value of a C comparison as `int`. -/
def c_bool (b : Bool) : Int :=
  if b then 1 else 0

def is_space (c : Char) : Bool :=
  c == ' ' || c == '\t' || c == '\n' || c == '\x0b' || c == '\x0c' || c == '\r'

def digits_val (ds : List Char) : Nat :=
  ds.foldl (fun acc c => 10 * acc + (c.toNat - 48)) 0

/-- Exponent part of a decimal floating literal: `e`/`E`, optional sign, digits.
Without digits there is no exponent. -/
def atof_exponent : List Char → Int
  | [] => 0
  | c :: r =>
    if c = 'e' ∨ c = 'E' then
      match r with
      | '-' :: r1 =>
        let ds := r1.takeWhile Char.isDigit
        if ds = [] then 0 else - (digits_val ds : Int)
      | '+' :: r1 =>
        let ds := r1.takeWhile Char.isDigit
        if ds = [] then 0 else (digits_val ds : Int)
      | _ =>
        let ds := r.takeWhile Char.isDigit
        if ds = [] then 0 else (digits_val ds : Int)
    else 0

/-- The decimal part of `atof`: leading white space, optional sign, digits with an
optional fraction, optional exponent; `0` when no number can be read. Hexadecimal
literals, `inf`, `nan` and rounding to `double` are outside the model. -/
def atof (s : List Char) : ℚ :=
  let s1 := s.dropWhile is_space
  let neg : Bool := match s1 with
    | '-' :: _ => true
    | _ => false
  let s2 := match s1 with
    | '-' :: r => r
    | '+' :: r => r
    | _ => s1
  let ip := s2.takeWhile Char.isDigit
  let s3 := s2.dropWhile Char.isDigit
  let fp := match s3 with
    | '.' :: r => r.takeWhile Char.isDigit
    | _ => []
  let s4 := match s3 with
    | '.' :: r => r.dropWhile Char.isDigit
    | _ => s3
  if ip = [] ∧ fp = [] then 0
  else
    let mant : ℚ := (digits_val (ip ++ fp) : ℚ) / (10 : ℚ) ^ fp.length
    let v : ℚ := mant * (10 : ℚ) ^ (atof_exponent s4)
    if neg then -v else v

/-- Exact decision of the C comparison `sqrt(s) <= r` for a non-negative `s`. -/
def sqrt_le (s r : ℚ) : Bool :=
  decide (0 ≤ r ∧ s ≤ r * r)

/-- Subtraction of two `uint32_t` values. -/
def u32_sub (a b : Nat) : Nat :=
  (a % 4294967296 + (4294967296 - b % 4294967296)) % 4294967296

/-- Conversion `wl_fixed_to_double` of a 24.8 fixed-point number. -/
def wl_fixed_to_double (f : Int) : ℚ :=
  (f : ℚ) / 256

/-! ## Polling the player -/

/-- Command line built by `run_playerctl` with `snprintf`. -/
def playerctl_cmd (args : String) : String :=
  "playerctl --player=kew " ++ args ++ " 2>/dev/null"

/-- Function `run_playerctl`: the empty string when `popen` fails, otherwise the first
line of the output (at most 1023 bytes) without its trailing `\n` and `\r`. -/
def run_playerctl (sh : Shell) (args : String) : List Char :=
  match sh (playerctl_cmd args) with
  | none => []
  | some out => strip_eol (c_str (fgets 1023 out))

/-- Function `poll_state`: seven queries, each stored into its field of `state`. -/
def poll_state (sh : Shell) (w : Widget) : Widget × List Effect :=
  let title := strncpy (run_playerctl sh "metadata title") 255
  let artist := strncpy (run_playerctl sh "metadata artist") 255
  let album := strncpy (run_playerctl sh "metadata album") 255
  let art_url := strncpy (run_playerctl sh "metadata mpris:artUrl") 511
  let position := atof (run_playerctl sh "position")
  let length := atof (run_playerctl sh "metadata mpris:length") / 1000000
  let playing := c_bool (strcmp (run_playerctl sh "status") "Playing".toList == 0)
  ({ w with state := { title := title, artist := artist, album := album,
                       art_url := art_url, position := position, length := length,
                       playing := playing } },
   [Effect.popen (playerctl_cmd "metadata title"),
    Effect.popen (playerctl_cmd "metadata artist"),
    Effect.popen (playerctl_cmd "metadata album"),
    Effect.popen (playerctl_cmd "metadata mpris:artUrl"),
    Effect.popen (playerctl_cmd "position"),
    Effect.popen (playerctl_cmd "metadata mpris:length"),
    Effect.popen (playerctl_cmd "status")])

/-! ## Drawing -/

/-- The source path `convert_to_png` passes to the converter: the URL without a leading
`file://`, or `none` when that path is empty. -/
def convert_to_png (url : List Char) : Option (List Char) :=
  let path := if url.take 7 = "file://".toList then url.drop 7 else url
  if path.length = 0 then none else some path

/-- The local `prog` of `redraw`:
`state.length > 0 ? fmin(1.0, state.position / state.length) : 0.0`. -/
def prog (s : PlayerState) : ℚ :=
  if s.length > 0 then min 1 (s.position / s.length) else 0

/-- The frame composed by `redraw` from the current `state`. -/
def redraw_frame (s : PlayerState) : Frame :=
  let art_x : ℚ := 14
  let art_y : ℚ := ((HEIGHT - ART_SIZE : Int) : ℚ) / 2
  let tx : ℚ := art_x + (ART_SIZE : ℚ) + 14
  let text_max : ℚ := ((BTN_CX - BTN_R - 8 : Int) : ℚ) - tx
  let pb_x : ℚ := tx
  let pb_y : ℚ := 80
  let pb_h : ℚ := 2
  let pb_w : ℚ := ((BTN_CX - BTN_R - 8 : Int) : ℚ) - pb_x
  { art_path := convert_to_png s.art_url,
    art_x := art_x,
    art_y := art_y,
    title := if s.title.length > 0 then s.title else "Nothing playing".toList,
    artist := s.artist,
    album := s.album,
    tx := tx,
    text_max := text_max,
    track := { x := pb_x, y := pb_y, w := pb_w, h := pb_h },
    fill := { x := pb_x, y := pb_y, w := pb_w * prog s, h := pb_h },
    glyph := if s.playing ≠ 0 then Glyph.bars else Glyph.triangle }

/-- Function `redraw`: leaves every variable as it is and presents the frame. -/
def redraw (w : Widget) : Widget × List Effect :=
  (w, [Effect.redraw (redraw_frame w.state)])

/-! ## Pointer events -/

/-- Function `over_button`: `sqrt(dx*dx + dy*dy) <= BTN_R`. -/
def over_button (w : Widget) : Bool :=
  let dx : ℚ := w.ptr_x - (BTN_CX : ℚ)
  let dy : ℚ := w.ptr_y - (BTN_CY : ℚ)
  sqrt_le (dx * dx + dy * dy) (BTN_R : ℚ)

/-- Which of `cursor_pointer`, `cursor_default` and `cursor_surface` are non-NULL after
start-up. -/
structure Cursors where
  cursor_pointer : Bool
  cursor_default : Bool
  cursor_surface : Bool
deriving DecidableEq

/-- Function `set_cursor`: nothing when the cursor or the cursor surface is missing. -/
def set_cursor (cs : Cursors) (serial : Nat) (c : Cursor) : List Effect :=
  let cur := match c with
    | Cursor.pointer => cs.cursor_pointer
    | Cursor.default => cs.cursor_default
  if !cur || !cs.cursor_surface then [] else [Effect.set_cursor serial c]

/-- Function `pointer_enter`. -/
def pointer_enter (cs : Cursors) (serial : Nat) (x y : Int) (w : Widget) :
    Widget × List Effect :=
  ({ w with ptr_enter_serial := serial,
            ptr_x := wl_fixed_to_double x,
            ptr_y := wl_fixed_to_double y },
   set_cursor cs serial Cursor.default)

/-- Function `pointer_motion`. -/
def pointer_motion (cs : Cursors) (x y : Int) (w : Widget) : Widget × List Effect :=
  let w1 := { w with ptr_x := wl_fixed_to_double x, ptr_y := wl_fixed_to_double y }
  if over_button w1 then
    (w1, set_cursor cs w1.ptr_enter_serial Cursor.pointer)
  else
    (w1, set_cursor cs w1.ptr_enter_serial Cursor.default)

/-- Function `pointer_button`. -/
def pointer_button (time button btn_state : Nat) (w : Widget) : Widget × List Effect :=
  if btn_state ≠ WL_POINTER_BUTTON_STATE_PRESSED ∨ button ≠ 0x110 then (w, [])
  else if ¬ over_button w then (w, [])
  else if u32_sub time w.last_click_time < 300 then (w, [])
  else
    let w1 := { w with last_click_time := time }
    let w2 := { w1 with state := { w1.state with playing := c_not w1.state.playing } }
    let r := redraw w2
    let w3 := r.1
    ({ w3 with suppress_poll := 3 },
     r.2 ++ [Effect.display_flush, Effect.system "playerctl --player=kew play-pause"])

/-! ## Main loop -/

/-- A `struct timespec`. -/
structure Timespec where
  tv_sec : Int
  tv_nsec : Int
deriving DecidableEq

/-- The expression computed twice in the loop:
`(now.tv_sec - last.tv_sec) * 1000 + (now.tv_nsec - last.tv_nsec) / 1000000`,
with C division (rounding toward zero). -/
def elapsed_ms (now last : Timespec) : Int :=
  (now.tv_sec - last.tv_sec) * 1000 + Int.tdiv (now.tv_nsec - last.tv_nsec) 1000000

/-- Conversion of a `long` to `int`. -/
def to_int32 (x : Int) : Int :=
  (x + 2147483648) % 4294967296 - 2147483648

/-- The timeout handed to `poll()`. -/
def poll_timeout (now last : Timespec) : Int :=
  let timeout := to_int32 (POLL_MS - elapsed_ms now last)
  if timeout < 0 then 0 else timeout

/-- The variables of the loop in `main`: the file-scope variables and `last_poll_ts`. -/
structure Loop where
  w : Widget
  last_poll_ts : Timespec
deriving DecidableEq

/-- The last part of a loop iteration ("Poll playerctl on schedule"), entered with the
clock reading `now`. -/
def poll_tick (sh : Shell) (now : Timespec) (l : Loop) : Loop × List Effect :=
  if elapsed_ms now l.last_poll_ts ≥ POLL_MS then
    if l.w.suppress_poll > 0 then
      ({ w := { l.w with suppress_poll := l.w.suppress_poll - 1 }, last_poll_ts := now }, [])
    else
      let p := poll_state sh l.w
      let r := redraw p.1
      ({ w := r.1, last_poll_ts := now }, p.2 ++ r.2)
  else (l, [])

/-! ## Artwork -/

/-- Conversion of a `double` to an integer type: the fractional part is discarded. -/
def c_trunc (q : ℚ) : Int :=
  if 0 ≤ q then ⌊q⌋ else ⌈q⌉

/-- Conversion of an integer to `uint8_t`. -/
def to_uint8 (x : Int) : Nat :=
  (x % 256).toNat

/-- One 8-bit channel of a 32-bit pixel: `(p >> shift) & 0xff`. -/
def channel (p shift : Nat) : Nat :=
  (p >>> shift) &&& 0xff

/-- Nearest integer, a tie going to the even neighbour. -/
def round_even (q : ℚ) : Int :=
  if q - (⌊q⌋ : ℚ) < 1 / 2 then ⌊q⌋
  else if 1 / 2 < q - (⌊q⌋ : ℚ) then ⌊q⌋ + 1
  else if ⌊q⌋ % 2 = 0 then ⌊q⌋ else ⌊q⌋ + 1

/-- Rounding of an exact value to the nearest IEEE 754 binary64 number (53 significant
bits, round to nearest, ties to even), as every `double` operation does. Overflow and
subnormal numbers are outside the model. -/
def to_double (q : ℚ) : ℚ :=
  if q = 0 then 0
  else (round_even (q / (2 : ℚ) ^ (Int.log 2 |q| - 52)) : ℚ) * (2 : ℚ) ^ (Int.log 2 |q| - 52)

/-- Multiplication of two `double` values. -/
def d_mul (x y : ℚ) : ℚ :=
  to_double (x * y)

/-- Addition of two `double` values. -/
def d_add (x y : ℚ) : ℚ :=
  to_double (x + y)

/-- The local `grey` of the inner loop of `draw_art`:
`(uint8_t)(0.299*r + 0.587*g + 0.114*b)`, evaluated as C does: the three literals are
the nearest `double` values, each product and each sum (left to right) is rounded to
`double`, and the conversion drops the fraction. -/
def grey (r g b : Nat) : Nat :=
  to_uint8 (c_trunc
    (d_add (d_add (d_mul (to_double (299 / 1000)) (r : ℚ))
                  (d_mul (to_double (587 / 1000)) (g : ℚ)))
           (d_mul (to_double (114 / 1000)) (b : ℚ))))

/-- The body of the inner loop of `draw_art`: the new value of `px[col]`. -/
def grey_pixel (p : Nat) : Nat :=
  let a := channel p 24
  let r := channel p 16
  let g := channel p 8
  let b := channel p 0
  let grey := grey r g b
  (a <<< 24) ||| (grey <<< 16) ||| (grey <<< 8) ||| grey

/-- The two nested loops of `draw_art` over the rows and columns of the thumbnail. -/
def desaturate (rows : List (List Nat)) : List (List Nat) :=
  rows.map (fun px => px.map grey_pixel)

/-! ## Auxiliary facts -/

theorem u32_sub_eq_sub {a b : Nat} (ha : a < 4294967296) (hab : b ≤ a) :
    u32_sub a b = a - b := by
  unfold u32_sub
  omega

theorem u32_sub_eq_wrap {a b : Nat} (hb : b < 4294967296) (hab : a < b) :
    u32_sub a b = a + 4294967296 - b := by
  unfold u32_sub
  omega

theorem c_not_ne_zero_iff (x : Int) : c_not x ≠ 0 ↔ x = 0 := by
  unfold c_not
  by_cases h : x = 0 <;> simp [h]

/-- The hit test in squared form, with the constants evaluated. -/
theorem over_button_iff_sq (w : Widget) :
    over_button w = true ↔
      (w.ptr_x - 286) * (w.ptr_x - 286) + (w.ptr_y - 34) * (w.ptr_y - 34) ≤ 196 := by
  simp only [over_button, sqrt_le, BTN_CX, BTN_CY, BTN_R, WIDTH, MARGIN, decide_eq_true_eq]
  norm_num

/-! ## Pointer button -/

/-- C1: a primary-button press over the button whose timestamp is less than 300 ms
after the last accepted press, also across a wrap of the 32-bit millisecond counter,
changes nothing (the play/pause flag, `last_click_time` and `suppress_poll` keep their
values) and performs no action, in particular no toggle command. -/
theorem pointer_button_debounced (w : Widget) (time : Nat)
    (ht : time < 4294967296) (hl : w.last_click_time < 4294967296)
    (hover : over_button w = true)
    (hd : (w.last_click_time ≤ time ∧ time - w.last_click_time < 300) ∨
          (time < w.last_click_time ∧ time + 4294967296 - w.last_click_time < 300)) :
    pointer_button time 0x110 WL_POINTER_BUTTON_STATE_PRESSED w = (w, []) ∧
    (pointer_button time 0x110 WL_POINTER_BUTTON_STATE_PRESSED w).1.state.playing
      = w.state.playing ∧
    Effect.system "playerctl --player=kew play-pause"
      ∉ (pointer_button time 0x110 WL_POINTER_BUTTON_STATE_PRESSED w).2 ∧
    (pointer_button time 0x110 WL_POINTER_BUTTON_STATE_PRESSED w).1.last_click_time
      = w.last_click_time ∧
    (pointer_button time 0x110 WL_POINTER_BUTTON_STATE_PRESSED w).1.suppress_poll
      = w.suppress_poll := by
  have h : u32_sub time w.last_click_time < 300 := by
    rcases hd with ⟨h1, h2⟩ | ⟨h1, h2⟩
    · rw [u32_sub_eq_sub ht h1]; exact h2
    · rw [u32_sub_eq_wrap hl h1]; exact h2
  have e : pointer_button time 0x110 WL_POINTER_BUTTON_STATE_PRESSED w = (w, []) := by
    simp [pointer_button, hover, h]
  simp [e]

/-- C1 at concrete inputs: a press 299 ms after the last accepted one, and a press 10 ms
after it across the wrap of the counter. -/
theorem pointer_button_debounced_witness :
    pointer_button 1299 0x110 WL_POINTER_BUTTON_STATE_PRESSED
        { Widget.init with ptr_x := 286, ptr_y := 34, last_click_time := 1000 }
      = ({ Widget.init with ptr_x := 286, ptr_y := 34, last_click_time := 1000 }, []) ∧
    pointer_button 4 0x110 WL_POINTER_BUTTON_STATE_PRESSED
        { Widget.init with ptr_x := 286, ptr_y := 34, last_click_time := 4294967290 }
      = ({ Widget.init with ptr_x := 286, ptr_y := 34, last_click_time := 4294967290 }, []) :=
  ⟨(pointer_button_debounced
      { Widget.init with ptr_x := 286, ptr_y := 34, last_click_time := 1000 } 1299
      (by decide) (by decide) (by norm_num [over_button_iff_sq, Widget.init])
      (Or.inl (by decide))).1,
   (pointer_button_debounced
      { Widget.init with ptr_x := 286, ptr_y := 34, last_click_time := 4294967290 } 4
      (by decide) (by decide) (by norm_num [over_button_iff_sq, Widget.init])
      (Or.inr (by decide))).1⟩

/-- The accepting branch of `pointer_button`, as one equation. -/
theorem pointer_button_accept_eq (w : Widget) (time : Nat)
    (hover : over_button w = true) (h : ¬ u32_sub time w.last_click_time < 300) :
    pointer_button time 0x110 WL_POINTER_BUTTON_STATE_PRESSED w
      = ({ w with state := { w.state with playing := c_not w.state.playing },
                  last_click_time := time,
                  suppress_poll := 3 },
         [Effect.redraw (redraw_frame { w.state with playing := c_not w.state.playing }),
          Effect.display_flush,
          Effect.system "playerctl --player=kew play-pause"]) := by
  simp [pointer_button, hover, h, redraw]

/-- A timestamp at least 300 ms after `last` on the 32-bit counter passes the debounce
test. -/
theorem u32_sub_not_lt {time last : Nat}
    (ht : time < 4294967296) (hl : last < 4294967296)
    (hd : (last ≤ time ∧ 300 ≤ time - last) ∨
          (time < last ∧ 300 ≤ time + 4294967296 - last)) :
    ¬ u32_sub time last < 300 := by
  rcases hd with ⟨h1, h2⟩ | ⟨h1, h2⟩
  · rw [u32_sub_eq_sub ht h1]; omega
  · rw [u32_sub_eq_wrap hl h1]; omega

/-- C3: a primary-button press over the button at least 300 ms (on the 32-bit counter)
after the last accepted press negates the play/pause flag, redraws with the negated
flag, then flushes and issues the toggle command once, sets `suppress_poll` to 3 and
records the timestamp in `last_click_time`; nothing else changes. -/
theorem pointer_button_accepted (w : Widget) (time : Nat)
    (ht : time < 4294967296) (hl : w.last_click_time < 4294967296)
    (hover : over_button w = true)
    (hd : (w.last_click_time ≤ time ∧ 300 ≤ time - w.last_click_time) ∨
          (time < w.last_click_time ∧ 300 ≤ time + 4294967296 - w.last_click_time)) :
    pointer_button time 0x110 WL_POINTER_BUTTON_STATE_PRESSED w
      = ({ w with state := { w.state with playing := c_not w.state.playing },
                  last_click_time := time,
                  suppress_poll := 3 },
         [Effect.redraw (redraw_frame { w.state with playing := c_not w.state.playing }),
          Effect.display_flush,
          Effect.system "playerctl --player=kew play-pause"]) ∧
    (c_not w.state.playing ≠ 0 ↔ w.state.playing = 0) ∧
    (redraw_frame { w.state with playing := c_not w.state.playing }).glyph
      = (if w.state.playing = 0 then Glyph.bars else Glyph.triangle) ∧
    (pointer_button time 0x110 WL_POINTER_BUTTON_STATE_PRESSED w).2.count
      (Effect.system "playerctl --player=kew play-pause") = 1 := by
  have e := pointer_button_accept_eq w time hover (u32_sub_not_lt ht hl hd)
  refine ⟨e, c_not_ne_zero_iff _, ?_, ?_⟩
  · by_cases h0 : w.state.playing = 0 <;> simp [redraw_frame, c_not, h0]
  · rw [e]
    simp [List.count_cons]

/-- C3 at a concrete input: the first press at 300 ms with the pointer on the button
centre, while the flag shows "not playing". -/
theorem pointer_button_accepted_witness :
    pointer_button 300 0x110 WL_POINTER_BUTTON_STATE_PRESSED
        { Widget.init with ptr_x := 286, ptr_y := 34 }
      = ({ Widget.init with
             ptr_x := 286, ptr_y := 34,
             state := { Widget.init.state with playing := 1 },
             last_click_time := 300, suppress_poll := 3 },
         [Effect.redraw (redraw_frame { Widget.init.state with playing := 1 }),
          Effect.display_flush,
          Effect.system "playerctl --player=kew play-pause"]) :=
  (pointer_button_accepted { Widget.init with ptr_x := 286, ptr_y := 34 } 300
    (by decide) (by decide) (by norm_num [over_button_iff_sq, Widget.init])
    (Or.inl (by decide))).1

/-- C8: a release, a press of another button than `0x110`, or a primary press while
the hit test fails leaves every variable unchanged and performs no action. -/
theorem pointer_button_ignored (w : Widget) (time button btn_state : Nat)
    (h : btn_state ≠ WL_POINTER_BUTTON_STATE_PRESSED ∨ button ≠ 0x110 ∨
         over_button w = false) :
    pointer_button time button btn_state w = (w, []) := by
  unfold pointer_button
  by_cases h1 : btn_state ≠ WL_POINTER_BUTTON_STATE_PRESSED ∨ button ≠ 0x110
  · simp [h1]
  · have h2 : over_button w = false := by
      rcases h with h | h | h
      · exact absurd (Or.inl h) h1
      · exact absurd (Or.inr h) h1
      · exact h
    simp [h1, h2]

/-- C8 at concrete inputs: a release of the primary button on the button centre, a
press of button `0x111` there, and a primary press at the card origin. -/
theorem pointer_button_ignored_witness :
    pointer_button 5000 0x110 0 { Widget.init with ptr_x := 286, ptr_y := 34 }
      = ({ Widget.init with ptr_x := 286, ptr_y := 34 }, []) ∧
    pointer_button 5000 0x111 1 { Widget.init with ptr_x := 286, ptr_y := 34 }
      = ({ Widget.init with ptr_x := 286, ptr_y := 34 }, []) ∧
    pointer_button 5000 0x110 1 Widget.init = (Widget.init, []) :=
  ⟨pointer_button_ignored _ 5000 0x110 0 (Or.inl (by decide)),
   pointer_button_ignored _ 5000 0x111 1 (Or.inr (Or.inl (by decide))),
   pointer_button_ignored Widget.init 5000 0x110 1
     (Or.inr (Or.inr (by
       rw [← Bool.not_eq_true, over_button_iff_sq]
       norm_num [Widget.init])))⟩

/-! ## Poll suppression in the main loop -/

/-- An elapsed tick with a positive counter only decrements it and restarts the
interval. -/
theorem poll_tick_suppressed (sh : Shell) (now : Timespec) (l : Loop)
    (he : POLL_MS ≤ elapsed_ms now l.last_poll_ts) (hs : 0 < l.w.suppress_poll) :
    poll_tick sh now l
      = ({ w := { l.w with suppress_poll := l.w.suppress_poll - 1 },
           last_poll_ts := now }, []) := by
  simp [poll_tick, he, hs]

/-- An elapsed tick with the counter at zero (or below) polls the player and then
redraws from the polled state. -/
theorem poll_tick_polls (sh : Shell) (now : Timespec) (l : Loop)
    (he : POLL_MS ≤ elapsed_ms now l.last_poll_ts) (hs : l.w.suppress_poll ≤ 0) :
    poll_tick sh now l
      = ({ w := (poll_state sh l.w).1, last_poll_ts := now },
         (poll_state sh l.w).2 ++ [Effect.redraw (redraw_frame (poll_state sh l.w).1.state)]) := by
  have hs2 : ¬ 0 < l.w.suppress_poll := not_lt.mpr hs
  simp [poll_tick, he, hs2, redraw]

/-- An iteration before the interval has elapsed does nothing in the poll section. -/
theorem poll_tick_not_elapsed (sh : Shell) (now : Timespec) (l : Loop)
    (he : elapsed_ms now l.last_poll_ts < POLL_MS) :
    poll_tick sh now l = (l, []) := by
  have he2 : ¬ POLL_MS ≤ elapsed_ms now l.last_poll_ts := not_le.mpr he
  simp [poll_tick, he2]

/-- C2: after `pointer_button` has accepted a click, the next three elapsed poll ticks
each only decrement `suppress_poll` (3, 2, 1 to 2, 1, 0), perform no action and keep
the flipped play/pause flag; the fourth elapsed tick runs `poll_state` and then
`redraw` on the polled state. -/
theorem suppress_three_ticks (w0 : Widget) (time : Nat) (last : Timespec)
    (sh1 sh2 sh3 sh4 : Shell) (now1 now2 now3 now4 : Timespec)
    (ht : time < 4294967296) (hl : w0.last_click_time < 4294967296)
    (hover : over_button w0 = true)
    (hd : (w0.last_click_time ≤ time ∧ 300 ≤ time - w0.last_click_time) ∨
          (time < w0.last_click_time ∧ 300 ≤ time + 4294967296 - w0.last_click_time))
    (h1 : POLL_MS ≤ elapsed_ms now1 last) (h2 : POLL_MS ≤ elapsed_ms now2 now1)
    (h3 : POLL_MS ≤ elapsed_ms now3 now2) (h4 : POLL_MS ≤ elapsed_ms now4 now3) :
    let w := (pointer_button time 0x110 WL_POINTER_BUTTON_STATE_PRESSED w0).1
    let t1 := poll_tick sh1 now1 { w := w, last_poll_ts := last }
    let t2 := poll_tick sh2 now2 t1.1
    let t3 := poll_tick sh3 now3 t2.1
    let t4 := poll_tick sh4 now4 t3.1
    w.suppress_poll = 3 ∧
    w.state.playing = c_not w0.state.playing ∧
    t1 = ({ w := { w with suppress_poll := 2 }, last_poll_ts := now1 }, []) ∧
    t2 = ({ w := { w with suppress_poll := 1 }, last_poll_ts := now2 }, []) ∧
    t3 = ({ w := { w with suppress_poll := 0 }, last_poll_ts := now3 }, []) ∧
    t3.1.w.state.playing = c_not w0.state.playing ∧
    t4 = ({ w := (poll_state sh4 { w with suppress_poll := 0 }).1, last_poll_ts := now4 },
          (poll_state sh4 { w with suppress_poll := 0 }).2 ++
            [Effect.redraw
              (redraw_frame (poll_state sh4 { w with suppress_poll := 0 }).1.state)]) := by
  intro w t1 t2 t3 t4
  have hw : w = { w0 with state := { w0.state with playing := c_not w0.state.playing },
                          last_click_time := time, suppress_poll := 3 } := by
    have := pointer_button_accept_eq w0 time hover (u32_sub_not_lt ht hl hd)
    simp only [w, this]
  have e1 : t1 = ({ w := { w with suppress_poll := 2 }, last_poll_ts := now1 }, []) := by
    have := poll_tick_suppressed sh1 now1 { w := w, last_poll_ts := last } h1
      (by simp [hw])
    simp only [t1, this, hw]
    norm_num
  have e2 : t2 = ({ w := { w with suppress_poll := 1 }, last_poll_ts := now2 }, []) := by
    have := poll_tick_suppressed sh2 now2
      { w := { w with suppress_poll := 2 }, last_poll_ts := now1 } h2 (by simp)
    simp only [t2, e1, this]
    norm_num
  have e3 : t3 = ({ w := { w with suppress_poll := 0 }, last_poll_ts := now3 }, []) := by
    have := poll_tick_suppressed sh3 now3
      { w := { w with suppress_poll := 1 }, last_poll_ts := now2 } h3 (by simp)
    simp only [t3, e2, this]
    norm_num
  have e4 := poll_tick_polls sh4 now4
      { w := { w with suppress_poll := 0 }, last_poll_ts := now3 } h4 (by simp)
  refine ⟨by simp [hw], by simp [hw], e1, e2, e3, by simp [e3, hw], ?_⟩
  simp only [t4, e3, e4]

/-- C2 at a concrete run: a click accepted at 300 ms on the initial variables, then four
ticks 100 ms apart while the player tool gives no output. -/
theorem suppress_three_ticks_witness :
    (poll_tick (fun _ => none) ⟨10, 300000000⟩
      (poll_tick (fun _ => none) ⟨10, 200000000⟩
        (poll_tick (fun _ => none) ⟨10, 100000000⟩
          { w := (pointer_button 300 0x110 WL_POINTER_BUTTON_STATE_PRESSED
                    { Widget.init with ptr_x := 286, ptr_y := 34 }).1,
            last_poll_ts := ⟨10, 0⟩ }).1).1)
      = ({ w := { (pointer_button 300 0x110 WL_POINTER_BUTTON_STATE_PRESSED
                    { Widget.init with ptr_x := 286, ptr_y := 34 }).1
                  with suppress_poll := 0 },
           last_poll_ts := ⟨10, 300000000⟩ }, []) :=
  (suppress_three_ticks { Widget.init with ptr_x := 286, ptr_y := 34 } 300 ⟨10, 0⟩
    (fun _ => none) (fun _ => none) (fun _ => none) (fun _ => none)
    ⟨10, 100000000⟩ ⟨10, 200000000⟩ ⟨10, 300000000⟩ ⟨10, 400000000⟩
    (by decide) (by decide) (by norm_num [over_button_iff_sq, Widget.init])
    (Or.inl (by decide)) (by decide) (by decide) (by decide) (by decide)).2.2.2.2.1

/-! ## Progress fraction and bar geometry -/

/-- With a positive length the fraction is the ratio capped at one. -/
theorem prog_of_pos (s : PlayerState) (h : 0 < s.length) :
    prog s = min 1 (s.position / s.length) := by
  simp [prog, h]

/-- The track rectangle is 164 wide and starts at x = 100, whatever the state. -/
theorem redraw_frame_track (s : PlayerState) :
    (redraw_frame s).track = { x := 100, y := 80, w := 164, h := 2 } := by
  simp only [redraw_frame, BTN_CX, BTN_R, WIDTH, MARGIN, ART_SIZE]
  norm_num

/-- The fill rectangle, with the constants evaluated. -/
theorem redraw_frame_fill (s : PlayerState) :
    (redraw_frame s).fill = { x := 100, y := 80, w := 164 * prog s, h := 2 } := by
  simp only [redraw_frame, BTN_CX, BTN_R, WIDTH, MARGIN, ART_SIZE]
  norm_num

/-- C4 fails as stated: with position -30 and length 120 the fraction computed by
`redraw` is -1/4, whereas the clamp of the ratio to [0, 1] is 0. -/
theorem prog_negative_position_not_clamped :
    prog { Widget.init.state with position := -30, length := 120 } = -1 / 4 ∧
    ¬ (∀ s : PlayerState, 0 < s.length →
        prog s = max 0 (min 1 (s.position / s.length))) := by
  have h : prog { Widget.init.state with position := -30, length := 120 } = -1 / 4 := by
    norm_num [prog]
  refine ⟨h, ?_⟩
  intro hall
  have h2 := hall { Widget.init.state with position := -30, length := 120 } (by norm_num)
  rw [h] at h2
  norm_num at h2

/-- C4 (amended): for a positive length the fraction is `min 1 (position / length)`: the
ratio itself when it is at most 1 and 1 when it exceeds 1; for a non-negative position
this is the clamp of the ratio to [0, 1]. -/
theorem prog_eq_min (s : PlayerState) (hlen : 0 < s.length) :
    prog s = min 1 (s.position / s.length) ∧
    (s.position / s.length ≤ 1 → prog s = s.position / s.length) ∧
    (1 < s.position / s.length → prog s = 1) ∧
    (0 ≤ s.position → prog s = max 0 (min 1 (s.position / s.length))) := by
  have e := prog_of_pos s hlen
  refine ⟨e, ?_, ?_, ?_⟩
  · intro h
    rw [e, min_eq_right h]
  · intro h
    rw [e, min_eq_left h.le]
  · intro h
    have hr : 0 ≤ s.position / s.length := div_nonneg h hlen.le
    rw [e, max_eq_right (le_min zero_le_one hr)]

/-- C4 (amended) at position 30 and length 120, and at position 200 and length 120. -/
theorem prog_eq_min_witness :
    prog { Widget.init.state with position := 30, length := 120 } = 1 / 4 ∧
    prog { Widget.init.state with position := 200, length := 120 } = 1 := by
  constructor
  · rw [(prog_eq_min { Widget.init.state with position := 30, length := 120 }
      (by norm_num)).1]
    norm_num
  · exact (prog_eq_min { Widget.init.state with position := 200, length := 120 }
      (by norm_num)).2.2.1 (by norm_num)

/-- C5: with a length that is zero or negative the fraction is 0 for every position, and
the fill rectangle has width 0. -/
theorem prog_zero_of_length_nonpos (s : PlayerState) (hlen : s.length ≤ 0) :
    prog s = 0 ∧ (redraw_frame s).fill.w = 0 := by
  have h : prog s = 0 := by
    have hn : ¬ 0 < s.length := not_lt.mpr hlen
    simp [prog, hn]
  refine ⟨h, ?_⟩
  rw [redraw_frame_fill, h]
  norm_num

/-- C5 at length 0 with position 42 and at length -5 with position 3. -/
theorem prog_zero_of_length_nonpos_witness :
    (redraw_frame { Widget.init.state with position := 42, length := 0 }).fill.w = 0 ∧
    (redraw_frame { Widget.init.state with position := 3, length := -5 }).fill.w = 0 :=
  ⟨(prog_zero_of_length_nonpos { Widget.init.state with position := 42, length := 0 }
      (by norm_num)).2,
   (prog_zero_of_length_nonpos { Widget.init.state with position := 3, length := -5 }
      (by norm_num)).2⟩

/-- C10: the fill rectangle starts at the x of the track rectangle, the track is
`BTN_CX - BTN_R - 8 - tx = 164` wide, and the fill width is the track width times the
progress fraction; with position 30 and length 120 it is 41, a quarter of 164. -/
theorem fill_geometry :
    (∀ s : PlayerState,
      (redraw_frame s).fill.x = (redraw_frame s).track.x ∧
      (redraw_frame s).fill.y = (redraw_frame s).track.y ∧
      (redraw_frame s).fill.h = (redraw_frame s).track.h ∧
      (redraw_frame s).track.w = ((BTN_CX - BTN_R - 8 : Int) : ℚ) - (redraw_frame s).tx ∧
      (redraw_frame s).track.w = 164 ∧
      (redraw_frame s).fill.w = (redraw_frame s).track.w * prog s) ∧
    (∀ s : PlayerState, s.position = 30 → s.length = 120 →
      (redraw_frame s).fill.w = 41 ∧
      (redraw_frame s).fill.w = (redraw_frame s).track.w * (25 / 100)) := by
  constructor
  · intro s
    rw [redraw_frame_fill, redraw_frame_track]
    refine ⟨rfl, rfl, rfl, ?_, rfl, rfl⟩
    simp only [redraw_frame, BTN_CX, BTN_R, WIDTH, MARGIN, ART_SIZE]
    norm_num
  · intro s hp hl
    have h : prog s = 1 / 4 := by
      rw [prog_of_pos s (by rw [hl]; norm_num), hp, hl]
      norm_num
    rw [redraw_frame_fill, redraw_frame_track, h]
    norm_num

/-- C10 at the snapshot with position 30 and length 120. -/
theorem fill_geometry_witness :
    (redraw_frame { Widget.init.state with position := 30, length := 120 }).fill.w = 41 :=
  (fill_geometry.2 { Widget.init.state with position := 30, length := 120 } rfl rfl).1

/-! ## Hit test -/

/-- The model of `sqrt(s) <= r` agrees with the real square root. -/
theorem sqrt_le_iff_real (s r : ℚ) :
    sqrt_le s r = true ↔ Real.sqrt (s : ℝ) ≤ (r : ℝ) := by
  simp only [sqrt_le, decide_eq_true_eq]
  constructor
  · rintro ⟨hr, hs⟩
    have hr2 : (0 : ℝ) ≤ (r : ℝ) := by exact_mod_cast hr
    rw [Real.sqrt_le_left hr2, pow_two]
    exact_mod_cast hs
  · intro h
    have hr2 : (0 : ℝ) ≤ (r : ℝ) := le_trans (Real.sqrt_nonneg _) h
    refine ⟨by exact_mod_cast hr2, ?_⟩
    rw [Real.sqrt_le_left hr2, pow_two] at h
    exact_mod_cast h

/-- C6: `over_button` holds exactly when the Euclidean distance from the pointer to the
button centre (BTN_CX, BTN_CY) = (286, 34) is at most BTN_R = 14; points at distance
exactly 14, such as (300, 34) and (286, 20), are inside, and every point farther than
14 is outside. -/
theorem over_button_iff_distance :
    ((BTN_CX, BTN_CY, BTN_R) = (286, 34, 14)) ∧
    (∀ w : Widget, over_button w = true ↔
      Real.sqrt (((w.ptr_x : ℝ) - (BTN_CX : ℝ)) ^ 2 + ((w.ptr_y : ℝ) - (BTN_CY : ℝ)) ^ 2)
        ≤ (BTN_R : ℝ)) ∧
    (∀ w : Widget,
      Real.sqrt (((w.ptr_x : ℝ) - (BTN_CX : ℝ)) ^ 2 + ((w.ptr_y : ℝ) - (BTN_CY : ℝ)) ^ 2)
        = (BTN_R : ℝ) → over_button w = true) ∧
    (∀ w : Widget,
      (BTN_R : ℝ) <
        Real.sqrt (((w.ptr_x : ℝ) - (BTN_CX : ℝ)) ^ 2 + ((w.ptr_y : ℝ) - (BTN_CY : ℝ)) ^ 2)
        → over_button w = false) ∧
    over_button { Widget.init with ptr_x := 300, ptr_y := 34 } = true ∧
    over_button { Widget.init with ptr_x := 286, ptr_y := 20 } = true ∧
    over_button { Widget.init with ptr_x := wl_fixed_to_double (300 * 256 + 1),
                                   ptr_y := 34 } = false := by
  have key : ∀ w : Widget, over_button w = true ↔
      Real.sqrt (((w.ptr_x : ℝ) - (BTN_CX : ℝ)) ^ 2 + ((w.ptr_y : ℝ) - (BTN_CY : ℝ)) ^ 2)
        ≤ (BTN_R : ℝ) := by
    intro w
    unfold over_button
    simp only []
    rw [sqrt_le_iff_real]
    have e : (((w.ptr_x - (BTN_CX : ℚ)) * (w.ptr_x - (BTN_CX : ℚ)) +
        (w.ptr_y - (BTN_CY : ℚ)) * (w.ptr_y - (BTN_CY : ℚ)) : ℚ) : ℝ)
        = ((w.ptr_x : ℝ) - (BTN_CX : ℝ)) ^ 2 + ((w.ptr_y : ℝ) - (BTN_CY : ℝ)) ^ 2 := by
      push_cast
      ring
    rw [e]
    norm_cast
  refine ⟨by decide, key, ?_, ?_, ?_, ?_, ?_⟩
  · intro w h
    exact (key w).2 h.le
  · intro w h
    rw [← Bool.not_eq_true, key w]
    exact not_le.mpr h
  · norm_num [over_button_iff_sq, Widget.init]
  · norm_num [over_button_iff_sq, Widget.init]
  · rw [← Bool.not_eq_true, over_button_iff_sq]
    norm_num [Widget.init, wl_fixed_to_double]

/-! ## Status parsing -/

theorem char_eq_of_toNat_eq {a b : Char} (h : a.toNat = b.toNat) : a = b := by
  rw [← Char.ofNat_toNat a, ← Char.ofNat_toNat b, h]

theorem char_toNat_ne_zero {c : Char} (h : c ≠ '\x00') : c.toNat ≠ 0 := by
  intro h0
  exact h (char_eq_of_toNat_eq (by rw [h0]; rfl))

/-- On C strings (no NUL inside) `strcmp` returns 0 exactly for equal strings. -/
theorem strcmp_eq_zero_iff :
    ∀ a b : List Char, (∀ c ∈ a, c ≠ '\x00') → (∀ c ∈ b, c ≠ '\x00') →
      (strcmp a b = 0 ↔ a = b)
  | [], [], _, _ => by simp [strcmp]
  | [], b :: bs, _, hb => by
    have := char_toNat_ne_zero (hb b (List.mem_cons_self _ _))
    simp [strcmp]
    omega
  | a :: as, [], ha, _ => by
    have := char_toNat_ne_zero (ha a (List.mem_cons_self _ _))
    simp [strcmp]
    omega
  | a :: as, b :: bs, ha, hb => by
    have ih := strcmp_eq_zero_iff as bs
      (fun c hc => ha c (List.mem_cons_of_mem _ hc))
      (fun c hc => hb c (List.mem_cons_of_mem _ hc))
    by_cases hab : a = b
    · simp [strcmp, hab, ih]
    · have hne : a.toNat ≠ b.toNat := fun h => hab (char_eq_of_toNat_eq h)
      simp [strcmp, hab]
      omega

/-- The string returned by `run_playerctl` has no NUL inside. -/
theorem run_playerctl_no_nul (sh : Shell) (args : String) :
    ∀ c ∈ run_playerctl sh args, c ≠ '\x00' := by
  intro c hc
  unfold run_playerctl at hc
  cases h : sh (playerctl_cmd args) with
  | none => simp [h] at hc
  | some out =>
    simp only [h, strip_eol, c_str] at hc
    have h1 := (List.rdropWhile_prefix _ _).subset hc
    have h2 := List.mem_takeWhile_imp h1
    simpa using h2

theorem fgets_line : ∀ (n : Nat) (line rest : List Char),
    (∀ c ∈ line, c ≠ '\n') → line.length < n →
      fgets n (line ++ '\n' :: rest) = line ++ ['\n']
  | 0, _, _, _, hlen => absurd hlen (Nat.not_lt_zero _)
  | _ + 1, [], _, _, _ => by simp [fgets]
  | n + 1, c :: cs, rest, hnl, hlen => by
    have hc : c ≠ '\n' := hnl c (List.mem_cons_self _ _)
    have ih := fgets_line n cs rest (fun d hd => hnl d (List.mem_cons_of_mem _ hd))
      (by simpa using hlen)
    simp [fgets, hc, ih]

theorem c_str_of_no_nul (l : List Char) (h : ∀ c ∈ l, c ≠ '\x00') : c_str l = l := by
  unfold c_str
  rw [List.takeWhile_eq_self_iff]
  intro c hc
  simpa using h c hc

theorem strip_eol_append_newline (l : List Char) :
    strip_eol (l ++ ['\n']) = strip_eol l := by
  unfold strip_eol
  rw [List.rdropWhile_concat_pos]
  rfl

/-- The value of `run_playerctl` when the tool prints `line` and a newline. -/
theorem run_playerctl_line (sh : Shell) (args : String) (line rest : List Char)
    (hline : ∀ c ∈ line, c ≠ '\n' ∧ c ≠ '\x00') (hlen : line.length < 1023)
    (hsh : sh (playerctl_cmd args) = some (line ++ '\n' :: rest)) :
    run_playerctl sh args = strip_eol line := by
  unfold run_playerctl
  rw [hsh]
  simp only []
  rw [fgets_line 1023 line rest (fun c hc => (hline c hc).1) hlen,
    c_str_of_no_nul, strip_eol_append_newline]
  intro c hc
  rcases List.mem_append.mp hc with h | h
  · exact (hline c h).2
  · simp at h
    rw [h]
    decide

/-- The flag stored by `poll_state` is 1 when the stripped status reply is "Playing" and
0 otherwise. -/
theorem poll_state_playing_eq (sh : Shell) (w : Widget) :
    (poll_state sh w).1.state.playing
      = if run_playerctl sh "status" = "Playing".toList then 1 else 0 := by
  have h := strcmp_eq_zero_iff (run_playerctl sh "status") "Playing".toList
    (run_playerctl_no_nul sh "status") (by decide)
  show c_bool (strcmp (run_playerctl sh "status") "Playing".toList == 0) = _
  by_cases e : run_playerctl sh "status" = "Playing".toList
  · rw [if_pos e, h.2 e]
    rfl
  · have h0 : strcmp (run_playerctl sh "status") "Playing".toList ≠ 0 := fun x => e (h.1 x)
    rw [if_neg e, beq_eq_false_iff_ne.mpr h0]
    rfl

/-- C7: the `playing` flag stored by `poll_state` is 1 exactly when the status reply,
after `run_playerctl` has stripped the trailing newline and carriage-return
characters, is the string "Playing", compared case-sensitively, and 0 for every other
reply: "Paused", "playing", "Playing " with a trailing blank, an empty reply and a
failed `popen` all give 0. -/
theorem poll_state_playing_iff (w : Widget) :
    (∀ sh : Shell,
      ((poll_state sh w).1.state.playing = 1 ↔
        run_playerctl sh "status" = "Playing".toList) ∧
      ((poll_state sh w).1.state.playing = 0 ↔
        run_playerctl sh "status" ≠ "Playing".toList)) ∧
    (∀ (sh : Shell) (line rest : List Char),
      (∀ c ∈ line, c ≠ '\n' ∧ c ≠ '\x00') → line.length < 1023 →
      sh (playerctl_cmd "status") = some (line ++ '\n' :: rest) →
      ((poll_state sh w).1.state.playing = 1 ↔ strip_eol line = "Playing".toList)) ∧
    (poll_state (fun _ => some "Playing\n".toList) w).1.state.playing = 1 ∧
    (poll_state (fun _ => some "Playing\r\n".toList) w).1.state.playing = 1 ∧
    (poll_state (fun _ => some "Playing".toList) w).1.state.playing = 1 ∧
    (poll_state (fun _ => some "Paused\n".toList) w).1.state.playing = 0 ∧
    (poll_state (fun _ => some "playing\n".toList) w).1.state.playing = 0 ∧
    (poll_state (fun _ => some "Playing \n".toList) w).1.state.playing = 0 ∧
    (poll_state (fun _ => some []) w).1.state.playing = 0 ∧
    (poll_state (fun _ => none) w).1.state.playing = 0 := by
  refine ⟨?_, ?_, ?_, ?_, ?_, ?_, ?_, ?_, ?_, ?_⟩
  · intro sh
    rw [poll_state_playing_eq]
    by_cases e : run_playerctl sh "status" = "Playing".toList <;> simp [e]
  · intro sh line rest hline hlen hsh
    rw [poll_state_playing_eq, run_playerctl_line sh "status" line rest hline hlen hsh]
    by_cases e : strip_eol line = "Playing".toList <;> simp [e]
  all_goals rfl

/-! ## Nothing playing -/

/-- Without output `run_playerctl` returns the empty string. -/
theorem run_playerctl_silent (sh : Shell) (args : String)
    (h : sh (playerctl_cmd args) = none ∨ sh (playerctl_cmd args) = some []) :
    run_playerctl sh args = [] := by
  unfold run_playerctl
  rcases h with h | h
  · rw [h]
  · rw [h]
    rfl

theorem atof_nil : atof [] = 0 := by
  simp [atof]

/-- The title row shows the title, or the fixed text when the title is empty. -/
theorem redraw_frame_title (s : PlayerState) :
    (redraw_frame s).title = if s.title = [] then "Nothing playing".toList else s.title := by
  cases h : s.title with
  | nil => simp [redraw_frame, h]
  | cons c cs => simp [redraw_frame, h]

/-- C9 fails as stated: a snapshot with an empty title, position 30 and length 120 is
drawn with the text "Nothing playing" and a progress fill 41 wide, not 0. -/
theorem empty_title_fill_not_zero :
    (redraw_frame { Widget.init.state with position := 30, length := 120 }).title
      = "Nothing playing".toList ∧
    (redraw_frame { Widget.init.state with position := 30, length := 120 }).fill.w = 41 ∧
    ¬ (∀ s : PlayerState, s.title = [] →
        (redraw_frame s).title = "Nothing playing".toList ∧ (redraw_frame s).fill.w = 0) := by
  have hw : (redraw_frame { Widget.init.state with position := 30, length := 120 }).fill.w
      = 41 := by
    rw [redraw_frame_fill]
    norm_num [prog]
  refine ⟨rfl, hw, ?_⟩
  intro hall
  have h := (hall { Widget.init.state with position := 30, length := 120 } rfl).2
  rw [hw] at h
  norm_num at h

/-- C9 (amended): when no query of the player tool gives output (failed `popen` or
empty output), `poll_state` stores the snapshot with empty title, artist, album and
artwork reference, position 0, length 0 and `playing` 0, and touches nothing else; for
that snapshot `redraw` shows "Nothing playing" in the title row and a fill of width 0;
for every snapshot with an empty title the title row shows "Nothing playing", and a
non-empty title is shown as is. -/
theorem nothing_playing (sh : Shell) (w : Widget)
    (hsilent : ∀ cmd : String, sh cmd = none ∨ sh cmd = some []) :
    (poll_state sh w).1
      = { w with state := { title := [], artist := [], album := [], art_url := [],
                            position := 0, length := 0, playing := 0 } } ∧
    (redraw_frame (poll_state sh w).1.state).title = "Nothing playing".toList ∧
    (redraw_frame (poll_state sh w).1.state).fill.w = 0 ∧
    (redraw_frame (poll_state sh w).1.state).glyph = Glyph.triangle ∧
    (∀ s : PlayerState, s.title = [] →
      (redraw_frame s).title = "Nothing playing".toList) ∧
    (∀ s : PlayerState, s.title ≠ [] → (redraw_frame s).title = s.title) := by
  have hrun : ∀ args : String, run_playerctl sh args = [] :=
    fun args => run_playerctl_silent sh args (hsilent _)
  have e : (poll_state sh w).1
      = { w with state := { title := [], artist := [], album := [], art_url := [],
                            position := 0, length := 0, playing := 0 } } := by
    simp only [poll_state, hrun, atof_nil, strncpy, List.take_nil]
    norm_num
    rfl
  refine ⟨e, ?_, ?_, ?_, ?_, ?_⟩
  · rw [e]
    rfl
  · rw [e, redraw_frame_fill]
    norm_num [prog]
  · rw [e]
    rfl
  · intro s hs
    rw [redraw_frame_title, if_pos hs]
  · intro s hs
    rw [redraw_frame_title, if_neg hs]

/-- C9 (amended) for a tool that cannot be started and for one that prints nothing. -/
theorem nothing_playing_witness :
    (poll_state (fun _ => none)
      { Widget.init with state := { Widget.init.state with
          title := "Song".toList, position := 30, length := 120, playing := 1 } }).1
      = Widget.init ∧
    (poll_state (fun _ => some []) Widget.init).1 = Widget.init :=
  ⟨(nothing_playing (fun _ => none) _ (fun _ => Or.inl rfl)).1,
   (nothing_playing (fun _ => some []) Widget.init (fun _ => Or.inr rfl)).1⟩

/-! ## Grayscale artwork -/

theorem channel_eq_div_mod (p k : Nat) : channel p k = p / 2 ^ k % 256 := by
  unfold channel
  rw [Nat.shiftRight_eq_div_pow]
  exact Nat.and_pow_two_sub_one_eq_mod _ 8

/-- Four bytes combined with shifts and `|` add up without carries. -/
theorem pack_eq_add (a r g b : Nat) (hr : r < 256) (hg : g < 256) (hb : b < 256) :
    (a <<< 24) ||| (r <<< 16) ||| (g <<< 8) ||| b
      = a * 16777216 + r * 65536 + g * 256 + b := by
  simp only [Nat.shiftLeft_eq]
  have h1 : a * 2 ^ 24 ||| r * 2 ^ 16 = 2 ^ 16 * (a * 256 + r) := by
    have := Nat.mul_add_lt_is_or (show r * 2 ^ 16 < 2 ^ 24 by omega) a
    rw [Nat.mul_comm a, ← this]
    omega
  have h2 : 2 ^ 16 * (a * 256 + r) ||| g * 2 ^ 8 = 2 ^ 8 * (a * 65536 + r * 256 + g) := by
    have := Nat.mul_add_lt_is_or (show g * 2 ^ 8 < 2 ^ 16 by omega) (a * 256 + r)
    rw [← this]
    omega
  have h3 : 2 ^ 8 * (a * 65536 + r * 256 + g) ||| b
      = a * 16777216 + r * 65536 + g * 256 + b := by
    have := Nat.mul_add_lt_is_or (show b < 2 ^ 8 by omega) (a * 65536 + r * 256 + g)
    rw [← this]
    omega
  rw [h1, h2, h3]

/-- Every 32-bit value is the combination of its four channels. -/
theorem pixel_eq_pack (p : Nat) (hp : p < 4294967296) :
    p = (channel p 24 <<< 24) ||| (channel p 16 <<< 16) ||| (channel p 8 <<< 8)
      ||| channel p 0 := by
  rw [pack_eq_add _ _ _ _ (by rw [channel_eq_div_mod]; omega)
    (by rw [channel_eq_div_mod]; omega) (by rw [channel_eq_div_mod]; omega)]
  simp only [channel_eq_div_mod]
  omega

/-- The channels of four combined bytes are these bytes. -/
theorem channel_pack (a r g b : Nat)
    (ha : a < 256) (hr : r < 256) (hg : g < 256) (hb : b < 256) :
    channel ((a <<< 24) ||| (r <<< 16) ||| (g <<< 8) ||| b) 24 = a ∧
    channel ((a <<< 24) ||| (r <<< 16) ||| (g <<< 8) ||| b) 16 = r ∧
    channel ((a <<< 24) ||| (r <<< 16) ||| (g <<< 8) ||| b) 8 = g ∧
    channel ((a <<< 24) ||| (r <<< 16) ||| (g <<< 8) ||| b) 0 = b := by
  rw [pack_eq_add a r g b hr hg hb]
  simp only [channel_eq_div_mod]
  refine ⟨?_, ?_, ?_, ?_⟩ <;> omega

/-! ## Rounding to double -/

/-- The nearest integer is at most one half away. -/
theorem round_even_err (x : ℚ) : |(round_even x : ℚ) - x| ≤ 1 / 2 := by
  have h1 := Int.floor_le x
  have h2 := Int.lt_floor_add_one x
  unfold round_even
  rw [abs_le]
  split_ifs with a b c
  · constructor <;> linarith
  · push_cast
    constructor <;> linarith
  · constructor <;> linarith
  · push_cast
    constructor <;> linarith

/-- A value less than one half away from an integer rounds to it. -/
theorem round_even_of_lt (x : ℚ) (m : Int) (h : |x - (m : ℚ)| < 1 / 2) :
    round_even x = m := by
  rw [abs_lt] at h
  obtain ⟨h1, h2⟩ := h
  by_cases hx : (m : ℚ) ≤ x
  · have hf : ⌊x⌋ = m := by
      rw [Int.floor_eq_iff]
      constructor <;> linarith
    unfold round_even
    rw [hf, if_pos (by linarith)]
  · have hf : ⌊x⌋ = m - 1 := by
      rw [Int.floor_eq_iff]
      push_cast
      constructor <;> linarith
    unfold round_even
    rw [hf]
    push_cast
    rw [if_neg (by linarith), if_pos (by linarith)]
    omega

/-- A value halfway above an even integer rounds to that integer. -/
theorem round_even_tie (x : ℚ) (m : Int) (h : x = (m : ℚ) + 1 / 2) (he : m % 2 = 0) :
    round_even x = m := by
  have hf : ⌊x⌋ = m := by
    rw [Int.floor_eq_iff]
    constructor <;> linarith
  unfold round_even
  rw [hf, if_neg (by linarith), if_neg (by linarith), if_pos he]

/-- The binary exponent of a positive value lying between two powers of two. -/
theorem int_log_two_eq (q : ℚ) (e : Int) (h1 : (2 : ℚ) ^ e ≤ q) (h2 : q < (2 : ℚ) ^ (e + 1)) :
    Int.log 2 q = e := by
  have hq : 0 < q := lt_of_lt_of_le (zpow_pos (by norm_num) e) h1
  have a : e ≤ Int.log 2 q := by
    rw [← Int.zpow_le_iff_le_log (by norm_num) hq]
    exact_mod_cast h1
  have b : Int.log 2 q < e + 1 := by
    rw [← Int.lt_zpow_iff_log_lt (by norm_num) hq]
    exact_mod_cast h2
  omega

/-- Evaluation of `to_double` from the exponent and the rounded significand. -/
theorem to_double_eval (q : ℚ) (e m : Int)
    (h1 : (2 : ℚ) ^ e ≤ q) (h2 : q < (2 : ℚ) ^ (e + 1))
    (hm : round_even (q / (2 : ℚ) ^ (e - 52)) = m) :
    to_double q = (m : ℚ) * (2 : ℚ) ^ (e - 52) := by
  have hq : 0 < q := lt_of_lt_of_le (zpow_pos (by norm_num) e) h1
  unfold to_double
  rw [if_neg hq.ne', abs_of_pos hq, int_log_two_eq q e h1 h2, hm]

/-- The relative error of one rounding is at most 2^-53. -/
theorem to_double_err (q : ℚ) (h0 : 0 ≤ q) :
    |to_double q - q| ≤ q / 9007199254740992 := by
  rcases h0.eq_or_lt with h | hq
  · rw [← h]
    simp [to_double]
  · unfold to_double
    rw [if_neg hq.ne', abs_of_pos hq]
    have hu : (0 : ℚ) < (2 : ℚ) ^ (Int.log 2 q - 52) := zpow_pos (by norm_num) _
    have hlog : ((2 : ℕ) : ℚ) ^ Int.log 2 q ≤ q := Int.zpow_log_le_self (by norm_num) hq
    have hr := round_even_err (q / (2 : ℚ) ^ (Int.log 2 q - 52))
    have e1 : (round_even (q / (2 : ℚ) ^ (Int.log 2 q - 52)) : ℚ) * (2 : ℚ) ^ (Int.log 2 q - 52) - q
        = ((round_even (q / (2 : ℚ) ^ (Int.log 2 q - 52)) : ℚ)
            - q / (2 : ℚ) ^ (Int.log 2 q - 52)) * (2 : ℚ) ^ (Int.log 2 q - 52) := by
      field_simp
    rw [e1, abs_mul, abs_of_pos hu]
    have e2 : (2 : ℚ) ^ (Int.log 2 q - 52) = (2 : ℚ) ^ Int.log 2 q / 4503599627370496 := by
      rw [zpow_sub₀ (by norm_num)]
      norm_num
    have hlog2 : (2 : ℚ) ^ Int.log 2 q ≤ q := by exact_mod_cast hlog
    calc |(round_even (q / (2 : ℚ) ^ (Int.log 2 q - 52)) : ℚ)
            - q / (2 : ℚ) ^ (Int.log 2 q - 52)| * (2 : ℚ) ^ (Int.log 2 q - 52)
        ≤ 1 / 2 * (2 : ℚ) ^ (Int.log 2 q - 52) := mul_le_mul_of_nonneg_right hr hu.le
      _ = (2 : ℚ) ^ Int.log 2 q / 9007199254740992 := by rw [e2]; ring
      _ ≤ q / 9007199254740992 := by
        apply div_le_div_of_nonneg_right hlog2 (by norm_num)

/-- The `double` literal `0.299`. -/
theorem double_299 : to_double (299 / 1000) = 5386305154335113 / 18014398509481984 := by
  rw [to_double_eval (299 / 1000) (-2) 5386305154335113 (by norm_num) (by norm_num)
    (round_even_of_lt _ _ (by norm_num [abs_lt]))]
  norm_num

/-- The `double` literal `0.587`. -/
theorem double_587 : to_double (587 / 1000) = 5287225962532962 / 9007199254740992 := by
  rw [to_double_eval (587 / 1000) (-1) 5287225962532962 (by norm_num) (by norm_num)
    (round_even_of_lt _ _ (by norm_num [abs_lt]))]
  norm_num

/-- The `double` literal `0.114`. -/
theorem double_114 : to_double (114 / 1000) = 8214565720323785 / 72057594037927936 := by
  rw [to_double_eval (114 / 1000) (-4) 8214565720323785 (by norm_num) (by norm_num)
    (round_even_of_lt _ _ (by norm_num [abs_lt]))]
  norm_num

/-- A value with a 53-bit significand is a `double`: rounding leaves it as it is. -/
theorem to_double_exact (e m : Int) (h1 : 4503599627370496 ≤ m) (h2 : m < 9007199254740992) :
    to_double ((m : ℚ) * (2 : ℚ) ^ (e - 52)) = (m : ℚ) * (2 : ℚ) ^ (e - 52) := by
  have hu : (0 : ℚ) < (2 : ℚ) ^ (e - 52) := zpow_pos (by norm_num) _
  have e2 : (2 : ℚ) ^ e = 4503599627370496 * (2 : ℚ) ^ (e - 52) := by
    rw [zpow_sub₀ (by norm_num)]
    norm_num
    ring
  have e3 : (2 : ℚ) ^ (e + 1) = 9007199254740992 * (2 : ℚ) ^ (e - 52) := by
    rw [zpow_add₀ (by norm_num), e2]
    ring
  have m1 : (4503599627370496 : ℚ) ≤ (m : ℚ) := by exact_mod_cast h1
  have m2 : (m : ℚ) < 9007199254740992 := by exact_mod_cast h2
  apply to_double_eval
  · rw [e2]
    exact mul_le_mul_of_nonneg_right m1 hu.le
  · rw [e3]
    exact mul_lt_mul_of_pos_right m2 hu
  · apply round_even_of_lt
    rw [mul_div_assoc, div_self hu.ne']
    norm_num

/-- The double sum for r = g = b = 1 is 1 - 2^-53, just below the exact value 1. -/
theorem double_sum_111 :
    d_add (d_add (d_mul (to_double (299 / 1000)) ((1 : Nat) : ℚ))
                 (d_mul (to_double (587 / 1000)) ((1 : Nat) : ℚ)))
          (d_mul (to_double (114 / 1000)) ((1 : Nat) : ℚ))
      = 9007199254740991 / 9007199254740992 := by
  have p1 : d_mul (to_double (299 / 1000)) ((1 : Nat) : ℚ)
      = 5386305154335113 / 18014398509481984 := by
    unfold d_mul
    rw [double_299]
    have := to_double_exact (-2) 5386305154335113 (by norm_num) (by norm_num)
    norm_num at this ⊢
    exact this
  have p2 : d_mul (to_double (587 / 1000)) ((1 : Nat) : ℚ)
      = 5287225962532962 / 9007199254740992 := by
    unfold d_mul
    rw [double_587]
    have := to_double_exact (-1) 5287225962532962 (by norm_num) (by norm_num)
    norm_num at this ⊢
    exact this
  have p3 : d_mul (to_double (114 / 1000)) ((1 : Nat) : ℚ)
      = 8214565720323785 / 72057594037927936 := by
    unfold d_mul
    rw [double_114]
    have := to_double_exact (-4) 8214565720323785 (by norm_num) (by norm_num)
    norm_num at this ⊢
    exact this
  have s1 : d_add (5386305154335113 / 18014398509481984)
      (5287225962532962 / 9007199254740992) = 7980378539700518 / 9007199254740992 := by
    unfold d_add
    rw [to_double_eval _ (-1) 7980378539700518 (by norm_num) (by norm_num)
      (round_even_tie _ _ (by norm_num) (by decide))]
    norm_num
  have s2 : d_add (7980378539700518 / 9007199254740992)
      (8214565720323785 / 72057594037927936) = 9007199254740991 / 9007199254740992 := by
    unfold d_add
    rw [to_double_eval _ (-1) 9007199254740991 (by norm_num) (by norm_num)
      (round_even_of_lt _ _ (by norm_num [abs_lt]))]
    norm_num
  rw [p1, p2, p3, s1, s2]

/-- For r = g = b = 1 the byte stored in `grey` is 0. -/
theorem grey_111 : grey 1 1 1 = 0 := by
  unfold grey
  rw [double_sum_111]
  have hf : ⌊(9007199254740991 / 9007199254740992 : ℚ)⌋ = 0 := by
    rw [Int.floor_eq_iff]
    norm_num
  unfold c_trunc to_uint8
  rw [if_pos (by norm_num), hf]
  rfl

/-- One rounding of a value between 0 and 512 moves it by at most 10^-13. -/
theorem to_double_abs_err (q : ℚ) (h0 : 0 ≤ q) (h1 : q ≤ 512) :
    to_double q - q ≤ 1 / 10000000000000 ∧ q - to_double q ≤ 1 / 10000000000000 ∧
    0 ≤ to_double q := by
  have h := to_double_err q h0
  rw [abs_le] at h
  obtain ⟨ha, hb⟩ := h
  refine ⟨by linarith, by linarith, by linarith⟩

/-- The sum evaluated in `double` arithmetic is not negative and differs from the exact
weighted sum by at most 10^-9. -/
theorem double_sum_close (r g b : Nat) (hr : r < 256) (hg : g < 256) (hb : b < 256) :
    0 ≤ d_add (d_add (d_mul (to_double (299 / 1000)) (r : ℚ))
                     (d_mul (to_double (587 / 1000)) (g : ℚ)))
              (d_mul (to_double (114 / 1000)) (b : ℚ)) ∧
    d_add (d_add (d_mul (to_double (299 / 1000)) (r : ℚ))
                 (d_mul (to_double (587 / 1000)) (g : ℚ)))
          (d_mul (to_double (114 / 1000)) (b : ℚ))
      - ((299 / 1000 : ℚ) * (r : ℚ) + (587 / 1000 : ℚ) * (g : ℚ) + (114 / 1000 : ℚ) * (b : ℚ))
      ≤ 1 / 1000000000 ∧
    ((299 / 1000 : ℚ) * (r : ℚ) + (587 / 1000 : ℚ) * (g : ℚ) + (114 / 1000 : ℚ) * (b : ℚ))
      - d_add (d_add (d_mul (to_double (299 / 1000)) (r : ℚ))
                     (d_mul (to_double (587 / 1000)) (g : ℚ)))
              (d_mul (to_double (114 / 1000)) (b : ℚ))
      ≤ 1 / 1000000000 := by
  have hr1 : (r : ℚ) ≤ 255 := by exact_mod_cast Nat.lt_succ_iff.mp hr
  have hg1 : (g : ℚ) ≤ 255 := by exact_mod_cast Nat.lt_succ_iff.mp hg
  have hb1 : (b : ℚ) ≤ 255 := by exact_mod_cast Nat.lt_succ_iff.mp hb
  have hr0 : (0 : ℚ) ≤ (r : ℚ) := Nat.cast_nonneg r
  have hg0 : (0 : ℚ) ≤ (g : ℚ) := Nat.cast_nonneg g
  have hb0 : (0 : ℚ) ≤ (b : ℚ) := Nat.cast_nonneg b
  rw [double_299, double_587, double_114]
  unfold d_add d_mul
  obtain ⟨p1a, p1b, p1c⟩ := to_double_abs_err
    (5386305154335113 / 18014398509481984 * (r : ℚ)) (by positivity) (by linarith)
  obtain ⟨p2a, p2b, p2c⟩ := to_double_abs_err
    (5287225962532962 / 9007199254740992 * (g : ℚ)) (by positivity) (by linarith)
  obtain ⟨p3a, p3b, p3c⟩ := to_double_abs_err
    (8214565720323785 / 72057594037927936 * (b : ℚ)) (by positivity) (by linarith)
  obtain ⟨s1a, s1b, s1c⟩ := to_double_abs_err
    (to_double (5386305154335113 / 18014398509481984 * (r : ℚ))
      + to_double (5287225962532962 / 9007199254740992 * (g : ℚ)))
    (by linarith) (by linarith)
  obtain ⟨s2a, s2b, s2c⟩ := to_double_abs_err
    (to_double (to_double (5386305154335113 / 18014398509481984 * (r : ℚ))
        + to_double (5287225962532962 / 9007199254740992 * (g : ℚ)))
      + to_double (8214565720323785 / 72057594037927936 * (b : ℚ)))
    (by linarith) (by linarith)
  refine ⟨by linarith, by linarith, by linarith⟩

/-- The exact weighted sum of three bytes lies between 0 and 255. -/
theorem luma_bounds (r g b : Nat) (hr : r < 256) (hg : g < 256) (hb : b < 256) :
    0 ≤ (299 / 1000 : ℚ) * (r : ℚ) + (587 / 1000 : ℚ) * (g : ℚ) + (114 / 1000 : ℚ) * (b : ℚ) ∧
    (299 / 1000 : ℚ) * (r : ℚ) + (587 / 1000 : ℚ) * (g : ℚ) + (114 / 1000 : ℚ) * (b : ℚ)
      ≤ 255 := by
  have hr1 : (r : ℚ) ≤ 255 := by exact_mod_cast Nat.lt_succ_iff.mp hr
  have hg1 : (g : ℚ) ≤ 255 := by exact_mod_cast Nat.lt_succ_iff.mp hg
  have hb1 : (b : ℚ) ≤ 255 := by exact_mod_cast Nat.lt_succ_iff.mp hb
  have hr0 : (0 : ℚ) ≤ (r : ℚ) := Nat.cast_nonneg r
  have hg0 : (0 : ℚ) ≤ (g : ℚ) := Nat.cast_nonneg g
  have hb0 : (0 : ℚ) ≤ (b : ℚ) := Nat.cast_nonneg b
  constructor <;> linarith

/-- The byte stored in `grey` is the integer part of the double sum, which fits 8 bits;
it is the integer part of the exact sum or one less, and the integer part of the exact
sum whenever that sum is not an integer. -/
theorem grey_spec (r g b : Nat) (hr : r < 256) (hg : g < 256) (hb : b < 256) :
    (grey r g b : Int)
      = c_trunc (d_add (d_add (d_mul (to_double (299 / 1000)) (r : ℚ))
                              (d_mul (to_double (587 / 1000)) (g : ℚ)))
                       (d_mul (to_double (114 / 1000)) (b : ℚ))) ∧
    grey r g b < 256 ∧
    ((grey r g b : Int)
        = ⌊(299 / 1000 : ℚ) * (r : ℚ) + (587 / 1000 : ℚ) * (g : ℚ) + (114 / 1000 : ℚ) * (b : ℚ)⌋ ∨
     (grey r g b : Int)
        = ⌊(299 / 1000 : ℚ) * (r : ℚ) + (587 / 1000 : ℚ) * (g : ℚ)
            + (114 / 1000 : ℚ) * (b : ℚ)⌋ - 1) ∧
    ((299 * r + 587 * g + 114 * b) % 1000 ≠ 0 →
      (grey r g b : Int)
        = ⌊(299 / 1000 : ℚ) * (r : ℚ) + (587 / 1000 : ℚ) * (g : ℚ)
            + (114 / 1000 : ℚ) * (b : ℚ)⌋) := by
  obtain ⟨d0, d1, d2⟩ := double_sum_close r g b hr hg hb
  obtain ⟨l0, l1⟩ := luma_bounds r g b hr hg hb
  unfold grey
  generalize d_add (d_add (d_mul (to_double (299 / 1000)) (r : ℚ))
      (d_mul (to_double (587 / 1000)) (g : ℚ)))
      (d_mul (to_double (114 / 1000)) (b : ℚ)) = D at d0 d1 d2 ⊢
  have hS : (299 / 1000 : ℚ) * (r : ℚ) + (587 / 1000 : ℚ) * (g : ℚ) + (114 / 1000 : ℚ) * (b : ℚ)
      = (((299 * r + 587 * g + 114 * b : Nat) : Int) : ℚ) / 1000 := by
    push_cast
    ring
  generalize (299 / 1000 : ℚ) * (r : ℚ) + (587 / 1000 : ℚ) * (g : ℚ)
    + (114 / 1000 : ℚ) * (b : ℚ) = S at d1 d2 l0 l1 hS ⊢
  generalize 299 * r + 587 * g + 114 * b = N at hS ⊢
  have n1 : ((⌊S⌋ : Int) : ℚ) ≤ S := Int.floor_le S
  have n2 : S < ((⌊S⌋ : Int) : ℚ) + 1 := Int.lt_floor_add_one S
  have n0 : 0 ≤ ⌊S⌋ := Int.floor_nonneg.mpr l0
  have n255 : ⌊S⌋ ≤ 255 := by
    have : ((⌊S⌋ : Int) : ℚ) ≤ 255 := le_trans n1 l1
    exact_mod_cast this
  have i1 : 1000 * ⌊S⌋ ≤ (N : Int) := by
    have : (1000 : ℚ) * ((⌊S⌋ : Int) : ℚ) ≤ ((N : Int) : ℚ) := by
      linarith
    exact_mod_cast this
  have i2 : (N : Int) < 1000 * (⌊S⌋ + 1) := by
    have : ((N : Int) : ℚ) < (1000 : ℚ) * (((⌊S⌋ : Int) : ℚ) + 1) := by
      linarith
    exact_mod_cast this
  have i3 : ((N : Int) : ℚ) ≤ 1000 * ((⌊S⌋ : Int) : ℚ) + 999 := by
    have : (N : Int) ≤ 1000 * ⌊S⌋ + 999 := by omega
    exact_mod_cast this
  have f0 : 0 ≤ ⌊D⌋ := Int.floor_nonneg.mpr d0
  have f1 : ⌊S⌋ - 1 ≤ ⌊D⌋ := by
    rw [Int.le_floor]
    push_cast
    linarith
  have f2 : ⌊D⌋ ≤ ⌊S⌋ := by
    have : ⌊D⌋ < ⌊S⌋ + 1 := by
      rw [Int.floor_lt]
      push_cast
      linarith
    omega
  have hc : c_trunc D = ⌊D⌋ := by
    unfold c_trunc
    rw [if_pos d0]
  rw [hc]
  unfold to_uint8
  refine ⟨by omega, by omega, by omega, ?_⟩
  intro hN
  have i4 : 1000 * ⌊S⌋ + 1 ≤ (N : Int) := by omega
  have i5 : 1000 * ((⌊S⌋ : Int) : ℚ) + 1 ≤ ((N : Int) : ℚ) := by exact_mod_cast i4
  have f3 : ⌊S⌋ ≤ ⌊D⌋ := by
    rw [Int.le_floor]
    linarith
  omega

/-- The pixel written by the loop body for channels a, r, g, b. -/
theorem grey_pixel_pack (a r g b : Nat)
    (ha : a < 256) (hr : r < 256) (hg : g < 256) (hb : b < 256) :
    grey_pixel ((a <<< 24) ||| (r <<< 16) ||| (g <<< 8) ||| b)
      = (a <<< 24) ||| (grey r g b <<< 16) ||| (grey r g b <<< 8) ||| grey r g b := by
  obtain ⟨ca, cr, cg, cb⟩ := channel_pack a r g b ha hr hg hb
  simp only [grey_pixel, ca, cr, cg, cb]

/-- C11 fails as stated: for the pixel `0xFF010101` (a = 255, r = g = b = 1) the exact
sum 0.299 + 0.587 + 0.114 is 1, but the sum evaluated in `double` is 1 - 2^-53, so the
program writes `0xFF000000`: the colour channels are 0, not 1. -/
theorem grey_pixel_not_exact_luma :
    ⌊(299 / 1000 : ℚ) * ((1 : Nat) : ℚ) + (587 / 1000 : ℚ) * ((1 : Nat) : ℚ)
      + (114 / 1000 : ℚ) * ((1 : Nat) : ℚ)⌋ = 1 ∧
    grey_pixel 0xFF010101 = 0xFF000000 ∧
    channel (grey_pixel 0xFF010101) 16 = 0 ∧
    ¬ (∀ a r g b : Nat, a < 256 → r < 256 → g < 256 → b < 256 →
        (channel (grey_pixel ((a <<< 24) ||| (r <<< 16) ||| (g <<< 8) ||| b)) 16 : Int)
          = ⌊(299 / 1000 : ℚ) * (r : ℚ) + (587 / 1000 : ℚ) * (g : ℚ)
              + (114 / 1000 : ℚ) * (b : ℚ)⌋) := by
  have hf : ⌊(299 / 1000 : ℚ) * ((1 : Nat) : ℚ) + (587 / 1000 : ℚ) * ((1 : Nat) : ℚ)
      + (114 / 1000 : ℚ) * ((1 : Nat) : ℚ)⌋ = 1 := by
    rw [Int.floor_eq_iff]
    norm_num
  have hp : grey_pixel 0xFF010101 = 0xFF000000 := by
    have e : (0xFF010101 : Nat) = (255 <<< 24) ||| (1 <<< 16) ||| (1 <<< 8) ||| 1 := by
      decide
    rw [e, grey_pixel_pack 255 1 1 1 (by decide) (by decide) (by decide) (by decide),
      grey_111]
    decide
  have hc : channel (grey_pixel 0xFF010101) 16 = 0 := by
    rw [hp]
    decide
  refine ⟨hf, hp, hc, ?_⟩
  intro hall
  have h := hall 255 1 1 1 (by decide) (by decide) (by decide) (by decide)
  have e : (255 <<< 24) ||| (1 <<< 16) ||| (1 <<< 8) ||| 1 = (0xFF010101 : Nat) := by
    decide
  rw [e, hc, hf] at h
  exact absurd h (by decide)

/-- C11 (amended): for a pixel with channels a, r, g, b in 0..255 the pixel written by
`draw_art` keeps the alpha a and has red, green and blue all equal to one byte, the
integer part of 0.299 r + 0.587 g + 0.114 b evaluated in `double` arithmetic; that
integer part lies in 0..255, so the conversion to 8 bits does not wrap. The byte is
the integer part of the exact sum whenever the exact sum is not an integer, and
otherwise the exact sum or one less. -/
theorem grey_pixel_channels (a r g b p : Nat) (luma : Int)
    (ha : a < 256) (hr : r < 256) (hg : g < 256) (hb : b < 256)
    (hp : p = (a <<< 24) ||| (r <<< 16) ||| (g <<< 8) ||| b)
    (hluma : luma = ⌊(299 / 1000 : ℚ) * (r : ℚ) + (587 / 1000 : ℚ) * (g : ℚ)
      + (114 / 1000 : ℚ) * (b : ℚ)⌋) :
    channel (grey_pixel p) 24 = a ∧
    channel (grey_pixel p) 16 = grey r g b ∧
    channel (grey_pixel p) 8 = grey r g b ∧
    channel (grey_pixel p) 0 = grey r g b ∧
    grey_pixel p < 4294967296 ∧
    (grey r g b : Int)
      = c_trunc (d_add (d_add (d_mul (to_double (299 / 1000)) (r : ℚ))
                              (d_mul (to_double (587 / 1000)) (g : ℚ)))
                       (d_mul (to_double (114 / 1000)) (b : ℚ))) ∧
    0 ≤ c_trunc (d_add (d_add (d_mul (to_double (299 / 1000)) (r : ℚ))
                              (d_mul (to_double (587 / 1000)) (g : ℚ)))
                       (d_mul (to_double (114 / 1000)) (b : ℚ))) ∧
    c_trunc (d_add (d_add (d_mul (to_double (299 / 1000)) (r : ℚ))
                          (d_mul (to_double (587 / 1000)) (g : ℚ)))
                   (d_mul (to_double (114 / 1000)) (b : ℚ))) ≤ 255 ∧
    ((grey r g b : Int) = luma ∨ (grey r g b : Int) = luma - 1) ∧
    ((299 * r + 587 * g + 114 * b) % 1000 ≠ 0 → (grey r g b : Int) = luma) := by
  obtain ⟨g1, g2, g3, g4⟩ := grey_spec r g b hr hg hb
  obtain ⟨da, dr, dg, db⟩ := channel_pack a (grey r g b) (grey r g b) (grey r g b)
    ha g2 g2 g2
  have hpix := grey_pixel_pack a r g b ha hr hg hb
  rw [← hp] at hpix
  rw [← hluma] at g3 g4
  refine ⟨?_, ?_, ?_, ?_, ?_, g1, ?_, ?_, g3, g4⟩
  · rw [hpix, da]
  · rw [hpix, dr]
  · rw [hpix, dg]
  · rw [hpix, db]
  · rw [hpix, pack_eq_add _ _ _ _ g2 g2 g2]
    omega
  · rw [← g1]
    omega
  · rw [← g1]
    omega

/-- C11 (amended) at the opaque pixel `0xFF336699`: the exact sum is 92.565, not an
integer, and the result is `0xFF5C5C5C`. -/
theorem grey_pixel_channels_witness :
    channel (grey_pixel 0xFF336699) 24 = 255 ∧
    channel (grey_pixel 0xFF336699) 16 = 92 ∧
    channel (grey_pixel 0xFF336699) 8 = 92 ∧
    channel (grey_pixel 0xFF336699) 0 = 92 := by
  have hf : (92 : Int) = ⌊(299 / 1000 : ℚ) * ((51 : Nat) : ℚ)
      + (587 / 1000 : ℚ) * ((102 : Nat) : ℚ) + (114 / 1000 : ℚ) * ((153 : Nat) : ℚ)⌋ := by
    symm
    rw [Int.floor_eq_iff]
    norm_num
  have h := grey_pixel_channels 255 51 102 153 0xFF336699 92 (by decide) (by decide)
    (by decide) (by decide) (by decide) hf
  have hg : grey 51 102 153 = 92 := by
    have := h.2.2.2.2.2.2.2.2.2 (by decide)
    exact_mod_cast this
  rw [hg] at h
  exact ⟨h.1, h.2.1, h.2.2.1, h.2.2.2.1⟩

/-! ## Poll timeout -/

/-- C division by a million in terms of floor division. -/
theorem tdiv_million (x : Int) :
    Int.tdiv x 1000000 = if 0 ≤ x then x / 1000000 else -((-x) / 1000000) := by
  by_cases h : 0 ≤ x
  · rw [if_pos h, Int.tdiv_eq_ediv h (by decide)]
  · rw [if_neg h]
    have e : x = -(-x) := (Int.neg_neg x).symm
    conv_lhs => rw [e]
    rw [Int.neg_tdiv, Int.tdiv_eq_ediv (by omega) (by decide)]

/-- Between normalised timestamps with `now` not earlier than `last`, the computed
`elapsed_ms` is not negative. -/
theorem elapsed_ms_nonneg (now last : Timespec)
    (hn : 0 ≤ now.tv_nsec ∧ now.tv_nsec ≤ 999999999)
    (hl : 0 ≤ last.tv_nsec ∧ last.tv_nsec ≤ 999999999)
    (hle : last.tv_sec < now.tv_sec ∨
           (last.tv_sec = now.tv_sec ∧ last.tv_nsec ≤ now.tv_nsec)) :
    0 ≤ elapsed_ms now last := by
  unfold elapsed_ms
  rw [tdiv_million]
  split <;> omega

/-- The timeout handed to `poll()` is never negative. -/
theorem poll_timeout_nonneg (now last : Timespec) : 0 ≤ poll_timeout now last := by
  unfold poll_timeout
  simp only []
  split <;> omega

/-- While `elapsed_ms` stays below 2147483749 (about 24.8 days) the timeout is
`max 0 (POLL_MS - elapsed_ms)`, at most the poll interval. -/
theorem poll_timeout_eq_max (now last : Timespec)
    (h0 : 0 ≤ elapsed_ms now last) (h1 : elapsed_ms now last ≤ 2147483748) :
    poll_timeout now last = max 0 (POLL_MS - elapsed_ms now last) ∧
    poll_timeout now last ≤ POLL_MS := by
  unfold poll_timeout to_int32 POLL_MS
  simp only []
  have e : (100 - elapsed_ms now last + 2147483648) % 4294967296 - 2147483648
      = 100 - elapsed_ms now last := by omega
  rw [e]
  constructor
  · split
    · rw [max_eq_left (by omega)]
    · rw [max_eq_right (by omega)]
  · split <;> omega

/-- C12 fails on the code: with `last_poll_ts` = 0 s and `now` = 2147483.749 s (both
normalised, `now` later), `elapsed_ms` is 2147483749, the difference
`POLL_MS - elapsed_ms` = -2147483649 does not fit `int`, the conversion gives
2147483647, and that value, not `max 0 (100 - elapsed_ms)` = 0, is handed to
`poll()`. -/
theorem poll_timeout_int_overflow :
    elapsed_ms ⟨2147483, 749000000⟩ ⟨0, 0⟩ = 2147483749 ∧
    POLL_MS - elapsed_ms ⟨2147483, 749000000⟩ ⟨0, 0⟩ = -2147483649 ∧
    poll_timeout ⟨2147483, 749000000⟩ ⟨0, 0⟩ = 2147483647 ∧
    POLL_MS < poll_timeout ⟨2147483, 749000000⟩ ⟨0, 0⟩ ∧
    poll_timeout ⟨2147483, 749000000⟩ ⟨0, 0⟩
      ≠ max 0 (POLL_MS - elapsed_ms ⟨2147483, 749000000⟩ ⟨0, 0⟩) := by
  refine ⟨by decide, by decide, by decide, by decide, by decide⟩

/-! ## First click -/

/-- The debouncing branch of `pointer_button`, as one equation. -/
theorem pointer_button_reject_eq (w : Widget) (time : Nat)
    (h : u32_sub time w.last_click_time < 300) :
    pointer_button time 0x110 WL_POINTER_BUTTON_STATE_PRESSED w = (w, []) := by
  simp [pointer_button, h]

theorem c_not_ne_self (x : Int) : c_not x ≠ x := by
  unfold c_not
  by_cases h : x = 0
  · simp [h]
  · rw [if_neg h]
    exact fun e => h e.symm

/-- C13: while `last_click_time` still has its initial value 0, a primary-button press
over the button with timestamp t is accepted (the flag is negated and `suppress_poll`
becomes 3) exactly when t >= 300; a press with t < 300 is dropped by the debounce test
and changes nothing, although no click was accepted before. -/
theorem first_click_accepted_iff (w : Widget) (t : Nat)
    (h0 : w.last_click_time = 0) (ht : t < 4294967296) (hover : over_button w = true) :
    (((pointer_button t 0x110 WL_POINTER_BUTTON_STATE_PRESSED w).1.state.playing
        = c_not w.state.playing ∧
      (pointer_button t 0x110 WL_POINTER_BUTTON_STATE_PRESSED w).1.suppress_poll = 3)
      ↔ 300 ≤ t) ∧
    (300 ≤ t →
      pointer_button t 0x110 WL_POINTER_BUTTON_STATE_PRESSED w
        = ({ w with state := { w.state with playing := c_not w.state.playing },
                    last_click_time := t,
                    suppress_poll := 3 },
           [Effect.redraw (redraw_frame { w.state with playing := c_not w.state.playing }),
            Effect.display_flush,
            Effect.system "playerctl --player=kew play-pause"])) ∧
    (t < 300 →
      pointer_button t 0x110 WL_POINTER_BUTTON_STATE_PRESSED w = (w, [])) := by
  have hsub : u32_sub t w.last_click_time = t := by
    rw [h0]
    unfold u32_sub
    omega
  have hacc : 300 ≤ t →
      pointer_button t 0x110 WL_POINTER_BUTTON_STATE_PRESSED w
        = ({ w with state := { w.state with playing := c_not w.state.playing },
                    last_click_time := t,
                    suppress_poll := 3 },
           [Effect.redraw (redraw_frame { w.state with playing := c_not w.state.playing }),
            Effect.display_flush,
            Effect.system "playerctl --player=kew play-pause"]) := by
    intro h
    exact pointer_button_accept_eq w t hover (by rw [hsub]; omega)
  have hrej : t < 300 →
      pointer_button t 0x110 WL_POINTER_BUTTON_STATE_PRESSED w = (w, []) := by
    intro h
    exact pointer_button_reject_eq w t (by rw [hsub]; exact h)
  refine ⟨⟨?_, ?_⟩, hacc, hrej⟩
  · rintro ⟨hp, _⟩
    by_contra hlt
    rw [hrej (by omega)] at hp
    exact c_not_ne_self _ hp.symm
  · intro h
    rw [hacc h]
    exact ⟨rfl, rfl⟩

/-- C13 on the initial variables with the pointer on the button centre: a first press
at 299 ms is dropped, a first press at 300 ms is accepted. -/
theorem first_click_accepted_iff_witness :
    pointer_button 299 0x110 WL_POINTER_BUTTON_STATE_PRESSED
        { Widget.init with ptr_x := 286, ptr_y := 34 }
      = ({ Widget.init with ptr_x := 286, ptr_y := 34 }, []) ∧
    (pointer_button 300 0x110 WL_POINTER_BUTTON_STATE_PRESSED
        { Widget.init with ptr_x := 286, ptr_y := 34 }).1.suppress_poll = 3 :=
  ⟨(first_click_accepted_iff { Widget.init with ptr_x := 286, ptr_y := 34 } 299 rfl
      (by decide) (by norm_num [over_button_iff_sq, Widget.init])).2.2 (by decide),
   ((first_click_accepted_iff { Widget.init with ptr_x := 286, ptr_y := 34 } 300 rfl
      (by decide) (by norm_num [over_button_iff_sq, Widget.init])).1.2 (by decide)).2⟩

end MusicWidget
